import Mathlib

/-!
Verification of the EDmin backend (FastAPI + Pydantic, `src/main.py` and
`src/schemas.py`): a shallow embedding of the entity schema registry, the
per-entity HTTP handlers, the `/test` diagnostic handler, the `/schema`
exposure, and the generic persistence gateway (the gateway itself lives in
`database.py`, which is not part of the sources; it is modelled from the
specification where needed).
-/

namespace EDmin

/-! ## JSON-like values

Documents exchanged with the store are flat mappings from field names to
values.  The value grammar below covers exactly the shapes the 18 Pydantic
models use: scalars (strings, numbers, booleans, null), arrays of scalars,
objects with scalar values, and arrays of such objects (quiz questions).
Floating point numbers are represented by integers, and date / date-time
parsing is abstracted to string acceptance: no claim depends on numeric or
calendar arithmetic. -/

inductive Scalar where
  | s (v : String)
  | n (v : Int)
  | b (v : Bool)
  | null
deriving DecidableEq

inductive Value where
  | prim (v : Scalar)
  | arr (l : List Scalar)
  | obj (l : List (String × Scalar))
  | arrObj (l : List (List (String × Scalar)))
deriving DecidableEq

/-- A document / raw request body: an association list of fields. -/
abbrev Document := List (String × Value)

/-- Field access, `doc[k]` in Python (first binding wins). -/
def lookupField (doc : Document) (name : String) : Option Value :=
  (doc.find? (fun p => p.1 = name)).map Prod.snd

/-! ## Entity kinds

The 18 Pydantic models of `src/schemas.py`, in declaration order. -/

inductive EntityKind where
  | Tenant | User | Teacher | Parent | Student | Class | Enrollment
  | Attendance | GradeRecord | Invoice | Payment | Announcement
  | Notification | Resource | Assignment | Quiz | QuizSubmission
  | ActivityLog
deriving DecidableEq, Fintype

/-- `model_cls.__name__` of each model class. -/
def kindName : EntityKind → String
  | .Tenant => "Tenant"
  | .User => "User"
  | .Teacher => "Teacher"
  | .Parent => "Parent"
  | .Student => "Student"
  | .Class => "Class"
  | .Enrollment => "Enrollment"
  | .Attendance => "Attendance"
  | .GradeRecord => "GradeRecord"
  | .Invoice => "Invoice"
  | .Payment => "Payment"
  | .Announcement => "Announcement"
  | .Notification => "Notification"
  | .Resource => "Resource"
  | .Assignment => "Assignment"
  | .Quiz => "Quiz"
  | .QuizSubmission => "QuizSubmission"
  | .ActivityLog => "ActivityLog"

/-- All registered kinds, in the order `src/schemas.py` declares them. -/
def allKinds : List EntityKind :=
  [.Tenant, .User, .Teacher, .Parent, .Student, .Class, .Enrollment,
   .Attendance, .GradeRecord, .Invoice, .Payment, .Announcement,
   .Notification, .Resource, .Assignment, .Quiz, .QuizSubmission,
   .ActivityLog]

/-- Python `str.lower()` (character-wise lowercasing; the class names are
plain ASCII). -/
def pyLower (s : String) : String := ⟨s.data.map Char.toLower⟩

/-- `src/main.py`, `collection_name`: `model_cls.__name__.lower()`. -/
def collection_name (k : EntityKind) : String :=
  pyLower (kindName k)

/-! ## Field declarations (the schema registry)

Each Pydantic field is a name, a type annotation, and an optional default;
a field with no default (`Field(...)` or a bare annotation) is required. -/

inductive FieldType where
  | str | email | float | bool | date | datetime
  | listStr | listAny | dictStrAny | dictStrFloat | listDictAny
  | opt (t : FieldType)
deriving DecidableEq

/-- Pydantic-style type acceptance of a JSON value at a declared type.
`EmailStr` is abstracted to requiring an `@`; `date` / `datetime` accept
any string (format parsing abstracted). -/
def typeCheck : FieldType → Value → Bool
  | .str, .prim (.s _) => true
  | .email, .prim (.s v) => v.data.contains '@'
  | .float, .prim (.n _) => true
  | .bool, .prim (.b _) => true
  | .date, .prim (.s _) => true
  | .datetime, .prim (.s _) => true
  | .listStr, .arr l => l.all (fun x => match x with | .s _ => true | _ => false)
  | .listAny, .arr _ => true
  | .listAny, .arrObj _ => true
  | .dictStrAny, .obj _ => true
  | .dictStrFloat, .obj l => l.all (fun p => match p.2 with | .n _ => true | _ => false)
  | .listDictAny, .arrObj _ => true
  | .opt t, v => v = .prim .null || typeCheck t v
  | _, _ => false

structure FieldSpec where
  name : String
  type : FieldType
  default : Option Value
deriving DecidableEq

/-- Shorthand for an optional field whose default is `None`. -/
def optF (name : String) (t : FieldType) : FieldSpec :=
  ⟨name, .opt t, some (.prim .null)⟩

/-- Shorthand for a required field. -/
def reqF (name : String) (t : FieldType) : FieldSpec :=
  ⟨name, t, none⟩

/-- The declared fields of each model, transcribed from `src/schemas.py`. -/
def fields : EntityKind → List FieldSpec
  | .Tenant =>
    [reqF "name" .str, reqF "code" .str, optF "address" .str,
     optF "contact_email" .email, optF "contact_phone" .str,
     ⟨"timezone", .opt .str, some (.prim (.s "UTC"))⟩,
     ⟨"status", .str, some (.prim (.s "active"))⟩]
  | .User =>
    [reqF "tenant_id" .str, reqF "name" .str, reqF "email" .email,
     reqF "role" .str, optF "password_hash" .str,
     ⟨"is_active", .bool, some (.prim (.b true))⟩]
  | .Teacher =>
    [reqF "tenant_id" .str, optF "user_id" .str, optF "employee_id" .str,
     ⟨"subjects", .listStr, some (.arr [])⟩, optF "hire_date" .date,
     ⟨"status", .str, some (.prim (.s "active"))⟩]
  | .Parent =>
    [reqF "tenant_id" .str, optF "user_id" .str,
     ⟨"children_ids", .listStr, some (.arr [])⟩]
  | .Student =>
    [reqF "tenant_id" .str, optF "user_id" .str, reqF "student_number" .str,
     reqF "first_name" .str, reqF "last_name" .str, reqF "grade_level" .str,
     optF "dob" .date, optF "guardian_contact" .str, optF "address" .str,
     ⟨"status", .str, some (.prim (.s "active"))⟩]
  | .Class =>
    [reqF "tenant_id" .str, reqF "name" .str, reqF "code" .str,
     reqF "subject" .str, reqF "grade_level" .str, optF "teacher_id" .str,
     ⟨"schedule", .dictStrAny, some (.obj [])⟩]
  | .Enrollment =>
    [reqF "tenant_id" .str, reqF "class_id" .str, reqF "student_id" .str,
     optF "enrollment_date" .date,
     ⟨"status", .str, some (.prim (.s "enrolled"))⟩]
  | .Attendance =>
    [reqF "tenant_id" .str, reqF "class_id" .str, reqF "student_id" .str,
     reqF "date" .date, reqF "status" .str, optF "method" .str]
  | .GradeRecord =>
    [reqF "tenant_id" .str, reqF "student_id" .str, reqF "class_id" .str,
     reqF "term" .str, ⟨"scores", .dictStrFloat, some (.obj [])⟩,
     optF "remarks" .str]
  | .Invoice =>
    [reqF "tenant_id" .str, reqF "student_id" .str, reqF "title" .str,
     reqF "amount" .float, optF "due_date" .date,
     ⟨"status", .str, some (.prim (.s "unpaid"))⟩,
     ⟨"meta", .dictStrAny, some (.obj [])⟩]
  | .Payment =>
    [reqF "tenant_id" .str, reqF "invoice_id" .str, reqF "method" .str,
     reqF "amount" .float, optF "reference" .str,
     ⟨"status", .str, some (.prim (.s "success"))⟩]
  | .Announcement =>
    [reqF "tenant_id" .str, reqF "title" .str, reqF "message" .str,
     ⟨"audience", .listStr, some (.arr [.s "students", .s "teachers", .s "parents"])⟩,
     optF "starts_at" .datetime, optF "ends_at" .datetime]
  | .Notification =>
    [reqF "tenant_id" .str, reqF "user_id" .str, reqF "title" .str,
     reqF "message" .str, ⟨"type", .str, some (.prim (.s "info"))⟩,
     ⟨"is_read", .bool, some (.prim (.b false))⟩]
  | .Resource =>
    [reqF "tenant_id" .str, reqF "title" .str, reqF "subject" .str,
     reqF "grade_level" .str, optF "difficulty" .str, optF "url" .str,
     ⟨"tags", .listStr, some (.arr [])⟩]
  | .Assignment =>
    [reqF "tenant_id" .str, reqF "class_id" .str, reqF "title" .str,
     optF "description" .str, optF "due_date" .datetime]
  | .Quiz =>
    [reqF "tenant_id" .str, reqF "class_id" .str, reqF "title" .str,
     ⟨"questions", .listDictAny, some (.arrObj [])⟩]
  | .QuizSubmission =>
    [reqF "tenant_id" .str, reqF "quiz_id" .str, reqF "student_id" .str,
     ⟨"answers", .listAny, some (.arr [])⟩, optF "score" .float]
  | .ActivityLog =>
    [reqF "tenant_id" .str, optF "user_id" .str, reqF "action" .str,
     reqF "entity" .str, optF "entity_id" .str,
     ⟨"meta", .dictStrAny, some (.obj [])⟩]

/-- The names of the required fields (those declared with no default). -/
def requiredNames (k : EntityKind) : List String :=
  (fields k).filterMap (fun f => if f.default.isNone then some f.name else none)

/-- The complaint (if any) Pydantic validation raises about one declared
field of a raw input mapping: a present field of an unaccepted type, or an
absent field with no default, is reported by name. -/
def fieldError (raw : Document) (f : FieldSpec) : Option String :=
  match lookupField raw f.name with
  | some v => if typeCheck f.type v then none else some f.name
  | none => if f.default.isSome then none else some f.name

/-- Pydantic validation of a raw input mapping against a model's declared
shape: every declared field must be present with an accepted type or have a
default; unknown extra fields are ignored; all offending field names are
collected into the error.  A successful validation yields the canonical
record (declared fields only, defaults filled in). -/
def validate (k : EntityKind) (raw : Document) : Except (List String) Document :=
  let errs := (fields k).filterMap (fieldError raw)
  if errs = [] then
    .ok ((fields k).map (fun f =>
      (f.name, (lookupField raw f.name).getD (f.default.getD (.prim .null)))))
  else .error errs

def exceptOk : Except (List String) Document → Bool
  | .ok _ => true
  | .error _ => false

/-! ## Generic persistence gateway

`create_document` / `get_documents` live in `database.py`, which is not
among the sources; the gateway is therefore modelled from the spec. -/

/-- A stored document: the store-generated identifier is kept apart from
the record's own fields (the spec: each instance "is assigned a
generator-issued identifier by the persistence gateway"). -/
structure StoredDoc where
  oid : Nat
  fields : Document
deriving DecidableEq

/-- The process-wide store handle: collection name to stored documents. -/
abbrev Store := String → List StoredDoc

/-- Exact-match equality of a stored document against a filter: every key
of the filter must be present in the document with the given value. -/
def matchesFilter (filt : Document) (d : StoredDoc) : Bool :=
  filt.all (fun kv => lookupField d.fields kv.1 == some kv.2)

/-- The public shape of a returned record: the store's internal identifier
is exposed as the `id` string field. -/
def renameId (d : StoredDoc) : Document :=
  ("id", .prim (.s (toString d.oid))) :: d.fields

/-- Modelled from the spec: `get_documents` of `database.py` (not among the
sources).  "`filter` is a mapping from field name to expected scalar value
(exact-match equality only ...); an empty filter returns all documents in
the collection.  Returns a sequence of records with the store's internal
identifier field renamed to a public `id` string field." -/
def get_documents (db : Store) (cname : String) (filt : Document) : List Document :=
  ((db cname).filter (matchesFilter filt)).map renameId

/-! ## HTTP list handlers (`src/main.py`)

Each GET handler builds an equality filter from its optional query
parameters, testing Python truthiness (`if tenant_id:`), then calls
`get_documents`.  Query parameters are optional strings. -/

/-- Python truthiness of an optional string: `None` and `""` are falsy. -/
def pyTruthy : Option String → Bool
  | none => false
  | some s => !(s == "")

/-- The value a truthy query parameter contributes to the filter. -/
def optVal : Option String → Value
  | none => .prim .null
  | some s => .prim (.s s)

def condField (name : String) (v : Option String) : Document :=
  if pyTruthy v then [(name, optVal v)] else []

def list_tenants (db : Store) : List Document :=
  get_documents db (collection_name .Tenant) []

def list_users (db : Store) (tenant_id : Option String) : List Document :=
  get_documents db (collection_name .User) (condField "tenant_id" tenant_id)

def list_students (db : Store) (tenant_id grade_level : Option String) : List Document :=
  get_documents db (collection_name .Student)
    (condField "tenant_id" tenant_id ++ condField "grade_level" grade_level)

def list_classes (db : Store) (tenant_id : Option String) : List Document :=
  get_documents db (collection_name .Class) (condField "tenant_id" tenant_id)

def list_enrollments (db : Store) (tenant_id class_id student_id : Option String) : List Document :=
  get_documents db (collection_name .Enrollment)
    (condField "tenant_id" tenant_id ++ condField "class_id" class_id ++
     condField "student_id" student_id)

def list_attendance (db : Store) (tenant_id class_id student_id date : Option String) : List Document :=
  get_documents db (collection_name .Attendance)
    (condField "tenant_id" tenant_id ++ condField "class_id" class_id ++
     condField "student_id" student_id ++ condField "date" date)

def list_grades (db : Store) (tenant_id student_id class_id term : Option String) : List Document :=
  get_documents db (collection_name .GradeRecord)
    (condField "tenant_id" tenant_id ++ condField "student_id" student_id ++
     condField "class_id" class_id ++ condField "term" term)

def list_invoices (db : Store) (tenant_id student_id status : Option String) : List Document :=
  get_documents db (collection_name .Invoice)
    (condField "tenant_id" tenant_id ++ condField "student_id" student_id ++
     condField "status" status)

def list_payments (db : Store) (tenant_id invoice_id status : Option String) : List Document :=
  get_documents db (collection_name .Payment)
    (condField "tenant_id" tenant_id ++ condField "invoice_id" invoice_id ++
     condField "status" status)

def list_announcements (db : Store) (tenant_id : Option String) : List Document :=
  get_documents db (collection_name .Announcement) (condField "tenant_id" tenant_id)

def list_resources (db : Store) (tenant_id subject grade_level : Option String) : List Document :=
  get_documents db (collection_name .Resource)
    (condField "tenant_id" tenant_id ++ condField "subject" subject ++
     condField "grade_level" grade_level)

def list_assignments (db : Store) (tenant_id class_id : Option String) : List Document :=
  get_documents db (collection_name .Assignment)
    (condField "tenant_id" tenant_id ++ condField "class_id" class_id)

def list_quizzes (db : Store) (tenant_id class_id : Option String) : List Document :=
  get_documents db (collection_name .Quiz)
    (condField "tenant_id" tenant_id ++ condField "class_id" class_id)

def list_quiz_submissions (db : Store) (tenant_id quiz_id student_id : Option String) : List Document :=
  get_documents db (collection_name .QuizSubmission)
    (condField "tenant_id" tenant_id ++ condField "quiz_id" quiz_id ++
     condField "student_id" student_id)

def list_activity (db : Store) (tenant_id user_id action : Option String) : List Document :=
  get_documents db (collection_name .ActivityLog)
    (condField "tenant_id" tenant_id ++ condField "user_id" user_id ++
     condField "action" action)

/-! ## Diagnostic endpoint `GET /test` (`src/main.py`, `test_database`)

The handler inspects the process-wide `db` handle (from `database.py`,
outside the sources); its observable behaviour depends only on which of
four situations holds, captured by `DbState`.  The handler catches every
exception, so it is a total function into the diagnostic object. -/

inductive DbState where
  /-- `db is None` (store never connected). -/
  | noDb
  /-- `db` is live but `list_collection_names()` raises with message `msg`
  (`dbName` is `db.name` when the handle has one). -/
  | listFails (dbName : Option String) (msg : String)
  /-- `db` is live and introspection succeeds. -/
  | ok (dbName : Option String) (colls : List String)
  /-- touching `db` itself raises with message `msg` (outer `except`). -/
  | accessRaises (msg : String)
deriving DecidableEq

/-- Python slicing `s[:50]`, used to truncate exception messages. -/
def pyslice50 (s : String) : String := ⟨s.data.take 50⟩

/-- The `/test` response object.  `database_url` and `database_name` start
out as Python `None` (rendered here as `""`) but are unconditionally
overwritten with env-presence flags before the handler returns. -/
structure TestResponse where
  backend : String
  database : String
  database_url : String
  database_name : String
  connection_status : String
  collections : List String
deriving DecidableEq

/-- `src/main.py`, `test_database`, transcribed branch by branch; `envUrl`
and `envName` are the presence of the `DATABASE_URL` / `DATABASE_NAME`
environment variables. -/
def test_database (st : DbState) (envUrl envName : Bool) : TestResponse :=
  let base : TestResponse :=
    ⟨"✅ Running", "❌ Not Available", "", "", "Not Connected", []⟩
  let r :=
    match st with
    | .noDb => { base with database := "⚠️  Available but not initialized" }
    | .listFails dbName msg =>
      { base with
          database := "⚠️  Connected but Error: " ++ pyslice50 msg,
          database_url := "✅ Configured",
          database_name := dbName.getD "✅ Connected",
          connection_status := "Connected" }
    | .ok dbName colls =>
      { base with
          database := "✅ Connected & Working",
          database_url := "✅ Configured",
          database_name := dbName.getD "✅ Connected",
          connection_status := "Connected",
          collections := colls.take 20 }
    | .accessRaises msg =>
      { base with database := "❌ Error: " ++ pyslice50 msg }
  { r with
      database_url := if envUrl then "✅ Set" else "❌ Not Set",
      database_name := if envName then "✅ Set" else "❌ Not Set" }

/-! ## Schema exposure `GET /schema` (`src/main.py`, `get_schema`)

Pydantic's `model_json_schema()` output for these flat models is abstracted
to its title, object type, property names and required-field list. -/

structure JsonSchema where
  title : String
  type : String
  properties : List String
  required : List String
deriving DecidableEq

/-- `model_json_schema()` of a registered model. -/
def model_json_schema (k : EntityKind) : JsonSchema :=
  ⟨kindName k, "object", (fields k).map (·.name), requiredNames k⟩

/-- The literal response mapping of `get_schema` in `src/main.py`. -/
def get_schema : List (String × JsonSchema) :=
  [("tenant", model_json_schema .Tenant),
   ("user", model_json_schema .User),
   ("teacher", model_json_schema .Teacher),
   ("parent", model_json_schema .Parent),
   ("student", model_json_schema .Student),
   ("class", model_json_schema .Class),
   ("enrollment", model_json_schema .Enrollment),
   ("attendance", model_json_schema .Attendance),
   ("graderecord", model_json_schema .GradeRecord),
   ("invoice", model_json_schema .Invoice),
   ("payment", model_json_schema .Payment),
   ("announcement", model_json_schema .Announcement),
   ("notification", model_json_schema .Notification),
   ("resource", model_json_schema .Resource),
   ("assignment", model_json_schema .Assignment),
   ("quiz", model_json_schema .Quiz),
   ("quizsubmission", model_json_schema .QuizSubmission),
   ("activitylog", model_json_schema .ActivityLog)]

/-! ## The registered HTTP routes (`src/main.py`) -/

inductive HttpMethod where
  | GET | POST
deriving DecidableEq

structure Route where
  method : HttpMethod
  path : String
  /-- the entity kind a dedicated create / list route serves, if any. -/
  entity : Option EntityKind
deriving DecidableEq

/-- Every route `src/main.py` registers on the app, in source order. -/
def routes : List Route :=
  [⟨.GET, "/", none⟩,
   ⟨.GET, "/test", none⟩,
   ⟨.POST, "/tenants", some .Tenant⟩, ⟨.GET, "/tenants", some .Tenant⟩,
   ⟨.POST, "/users", some .User⟩, ⟨.GET, "/users", some .User⟩,
   ⟨.POST, "/students", some .Student⟩, ⟨.GET, "/students", some .Student⟩,
   ⟨.POST, "/classes", some .Class⟩, ⟨.GET, "/classes", some .Class⟩,
   ⟨.POST, "/enrollments", some .Enrollment⟩, ⟨.GET, "/enrollments", some .Enrollment⟩,
   ⟨.POST, "/attendance", some .Attendance⟩, ⟨.GET, "/attendance", some .Attendance⟩,
   ⟨.POST, "/grades", some .GradeRecord⟩, ⟨.GET, "/grades", some .GradeRecord⟩,
   ⟨.POST, "/invoices", some .Invoice⟩, ⟨.GET, "/invoices", some .Invoice⟩,
   ⟨.POST, "/payments", some .Payment⟩, ⟨.GET, "/payments", some .Payment⟩,
   ⟨.POST, "/announcements", some .Announcement⟩, ⟨.GET, "/announcements", some .Announcement⟩,
   ⟨.POST, "/resources", some .Resource⟩, ⟨.GET, "/resources", some .Resource⟩,
   ⟨.POST, "/assignments", some .Assignment⟩, ⟨.GET, "/assignments", some .Assignment⟩,
   ⟨.POST, "/quizzes", some .Quiz⟩, ⟨.GET, "/quizzes", some .Quiz⟩,
   ⟨.POST, "/quiz-submissions", some .QuizSubmission⟩, ⟨.GET, "/quiz-submissions", some .QuizSubmission⟩,
   ⟨.POST, "/activity", some .ActivityLog⟩, ⟨.GET, "/activity", some .ActivityLog⟩,
   ⟨.GET, "/schema", none⟩]

/-- Overwriting one field of a raw mapping with a new value. -/
def setField (raw : Document) (name : String) (v : Value) : Document :=
  (name, v) :: raw.filter (fun p => p.1 ≠ name)

/-! ## Theorems -/

theorem find?_filter_ne (raw : Document) (name m : String) (h : m ≠ name) :
    (raw.filter (fun p => p.1 ≠ name)).find? (fun p => p.1 = m) =
      raw.find? (fun p => p.1 = m) := by
  rw [List.find?_filter]
  congr 1
  funext a
  by_cases h2 : a.1 = m
  · have h3 : a.1 ≠ name := by rw [h2]; exact h
    simp [h2, h3]
    exact h
  · simp [h2]

theorem lookupField_setField_self (raw : Document) (name : String) (v : Value) :
    lookupField (setField raw name v) name = some v := by
  simp [lookupField, setField, List.find?]

theorem lookupField_setField_ne (raw : Document) (name m : String) (v : Value)
    (h : m ≠ name) : lookupField (setField raw name v) m = lookupField raw m := by
  unfold lookupField setField
  rw [List.find?_cons_of_neg, find?_filter_ne raw name m h]
  simpa using Ne.symm h

theorem get_documents_nil_filter (db : Store) (cname : String) :
    get_documents db cname [] = (db cname).map renameId := by
  unfold get_documents
  congr 1
  apply List.filter_eq_self.mpr
  intro a _
  rfl

/-- C1: every record returned by `get_documents` satisfies `record[k] = F[k]`
for every key `k` of the exact-match filter `F` (keys being entity field
names, not the gateway-issued public `id`), and the empty filter returns
every document in the collection. -/
theorem getDocuments_exact_match :
    (∀ (db : Store) (cname : String) (filt rec : Document) (k : String) (v : Value),
        rec ∈ get_documents db cname filt → (k, v) ∈ filt → k ≠ "id" →
        lookupField rec k = some v) ∧
    (∀ (db : Store) (cname : String),
        get_documents db cname [] = (db cname).map renameId) := by
  refine ⟨?_, get_documents_nil_filter⟩
  intro db cname filt rec k v hrec hkv hk
  obtain ⟨d, hd, hrn⟩ := List.mem_map.mp hrec
  have hmatch : matchesFilter filt d = true := (List.mem_filter.mp hd).2
  have hall := List.all_eq_true.mp hmatch (k, v) hkv
  have hlook : lookupField d.fields k = some v := by simpa using hall
  subst hrn
  unfold renameId lookupField
  rw [List.find?_cons_of_neg]
  · exact hlook
  · simpa using Ne.symm hk

theorem getDocuments_exact_match_witness :
    lookupField (renameId ⟨7, [("tenant_id", .prim (.s "t1"))]⟩) "tenant_id" =
      some (.prim (.s "t1")) :=
  getDocuments_exact_match.1
    (fun _ => [⟨7, [("tenant_id", .prim (.s "t1"))]⟩]) "student"
    [("tenant_id", .prim (.s "t1"))] _ "tenant_id" _
    (by decide) (by decide) (by decide)

/-- C2: validating a raw mapping that omits a required field (one declared
with no default) yields a validation error naming that field, for every
entity kind, and never a record. -/
theorem validate_missing_required :
    ∀ (k : EntityKind) (f : FieldSpec) (raw : Document),
      f ∈ fields k → f.default = none → lookupField raw f.name = none →
      ∃ errs, validate k raw = .error errs ∧ f.name ∈ errs := by
  intro k f raw hf hdef hmiss
  have hmem : f.name ∈ (fields k).filterMap (fieldError raw) :=
    List.mem_filterMap.mpr ⟨f, hf, by simp [fieldError, hmiss, hdef]⟩
  have hne : (fields k).filterMap (fieldError raw) ≠ [] :=
    List.ne_nil_of_mem hmem
  refine ⟨_, ?_, hmem⟩
  simp only [validate]
  rw [if_neg hne]

theorem validate_missing_required_witness :
    ∃ errs, validate .Student [] = .error errs ∧ "student_number" ∈ errs :=
  validate_missing_required .Student (reqF "student_number" .str) []
    (by decide) rfl rfl

/-- The free-text enum-like fields (`status`, `role`, `method`, `type`) are
declared as plain or optional strings in every model. -/
theorem enumFields_are_str :
    ∀ (k : EntityKind), ∀ g ∈ fields k,
      g.name ∈ ["status", "role", "method", "type"] →
      g.type = .str ∨ g.type = .opt .str := by decide

/-- C7: for every enum-like free-text field of every entity kind,
substituting an arbitrary string into an otherwise-valid payload still
validates successfully. -/
theorem validate_enum_free_text :
    ∀ (k : EntityKind) (f : FieldSpec) (raw : Document) (s : String),
      f ∈ fields k → f.name ∈ ["status", "role", "method", "type"] →
      exceptOk (validate k raw) = true →
      exceptOk (validate k (setField raw f.name (.prim (.s s)))) = true := by
  intro k f raw s hf hname hok
  have herr : (fields k).filterMap (fieldError raw) = [] := by
    by_contra hne
    simp only [validate] at hok
    rw [if_neg hne] at hok
    exact absurd hok (by simp [exceptOk])
  have hnone : ∀ g ∈ fields k, fieldError raw g = none :=
    List.filterMap_eq_nil_iff.mp herr
  have hnone' : ∀ g ∈ fields k,
      fieldError (setField raw f.name (.prim (.s s))) g = none := by
    intro g hg
    by_cases hgn : g.name = f.name
    · have htype := enumFields_are_str k g hg (by rw [hgn]; exact hname)
      have hlook : lookupField (setField raw f.name (.prim (.s s))) g.name =
          some (.prim (.s s)) := by
        rw [hgn]; exact lookupField_setField_self raw f.name _
      unfold fieldError
      rw [hlook]
      rcases htype with h | h <;> rw [h] <;> rfl
    · have hlk := lookupField_setField_ne raw f.name g.name (.prim (.s s)) hgn
      have := hnone g hg
      unfold fieldError at this ⊢
      rw [hlk]
      exact this
  have herr' : (fields k).filterMap (fieldError (setField raw f.name (.prim (.s s)))) = [] :=
    List.filterMap_eq_nil_iff.mpr hnone'
  simp only [validate]
  rw [if_pos herr']
  rfl

theorem validate_enum_free_text_witness :
    exceptOk (validate .User (setField
      [("tenant_id", .prim (.s "t1")), ("name", .prim (.s "Ann")),
       ("email", .prim (.s "ann@example.com")), ("role", .prim (.s "admin"))]
      "role" (.prim (.s "wizard")))) = true :=
  validate_enum_free_text .User (reqF "role" .str)
    [("tenant_id", .prim (.s "t1")), ("name", .prim (.s "Ann")),
     ("email", .prim (.s "ann@example.com")), ("role", .prim (.s "admin"))]
    "wizard" (by decide) (by decide) (by decide)

/-- C3: the `/schema` response maps, for each of the 18 registered entity
kinds in order, the lowercase kind name to that kind's JSON Schema object;
it has exactly 18 top-level keys and no duplicates. -/
theorem get_schema_keys :
    get_schema = allKinds.map (fun k => (pyLower (kindName k), model_json_schema k)) ∧
    get_schema.length = 18 ∧ (get_schema.map Prod.fst).Nodup :=
  ⟨by decide, rfl, by decide⟩

/-- C4: the collection name of every entity kind is the lowercase of the
type name (no pluralization), `allKinds` enumerates every kind, and the 18
collection names are pairwise distinct (the mapping is injective). -/
theorem collection_name_lowercase_injective :
    (∀ k, collection_name k = pyLower (kindName k)) ∧
    (∀ k : EntityKind, k ∈ allKinds) ∧ allKinds.length = 18 ∧
    (allKinds.map collection_name).Nodup :=
  ⟨fun _ => rfl, by decide, rfl, by decide⟩

/-- C5: an entity kind declares a `tenant_id` field exactly when it is not
`Tenant`. -/
theorem tenant_id_on_all_but_tenant :
    ∀ k : EntityKind,
      ("tenant_id" ∈ (fields k).map (fun f => f.name)) ↔ k ≠ .Tenant := by
  decide

/-- C6: the `/test` handler is a total function into the diagnostic object
(no escaping exception, hence never a 500): a dead store, a failing
introspection call, and a raising handle are each reported in the
`database` field, with the exception message truncated to 50 characters. -/
theorem test_database_catches_failures :
    (∀ envU envN, (test_database .noDb envU envN).database =
        "⚠️  Available but not initialized") ∧
    (∀ nm msg envU envN, (test_database (.listFails nm msg) envU envN).database =
        "⚠️  Connected but Error: " ++ pyslice50 msg) ∧
    (∀ msg envU envN, (test_database (.accessRaises msg) envU envN).database =
        "❌ Error: " ++ pyslice50 msg) ∧
    (∀ msg, (pyslice50 msg).length ≤ 50) := by
  refine ⟨fun _ _ => rfl, fun _ _ _ _ => rfl, fun _ _ _ => rfl, fun msg => ?_⟩
  exact List.length_take_le 50 msg.data

/-- C8: Teacher, Parent and Notification are registered (their lowercase
names are `/schema` keys) but no registered route serves any of them. -/
theorem teacher_parent_notification_no_routes :
    "teacher" ∈ get_schema.map Prod.fst ∧
    "parent" ∈ get_schema.map Prod.fst ∧
    "notification" ∈ get_schema.map Prod.fst ∧
    routes.all (fun r => !(r.entity == some .Teacher ||
      r.entity == some .Parent || r.entity == some .Notification)) = true := by
  decide

/-- C10: the `database_url` and `database_name` fields of the `/test`
response are functions of the environment flags alone: two store states
with the same environment yield identical values, and those values are the
env-presence flags. -/
theorem test_database_env_only :
    ∀ (st st' : DbState) (envUrl envName : Bool),
      (test_database st envUrl envName).database_url =
        (test_database st' envUrl envName).database_url ∧
      (test_database st envUrl envName).database_name =
        (test_database st' envUrl envName).database_name ∧
      (test_database st envUrl envName).database_url =
        (if envUrl then "✅ Set" else "❌ Not Set") ∧
      (test_database st envUrl envName).database_name =
        (if envName then "✅ Set" else "❌ Not Set") :=
  fun _ _ _ _ => ⟨rfl, rfl, rfl, rfl⟩

/-- C9: on every GET list endpoint, a query parameter supplied as the empty
string is treated exactly like an absent one (the handlers test Python
truthiness, so the built filter omits the key); in particular `/students`
with an empty `grade_level` returns all students. -/
theorem empty_string_param_treated_as_absent :
    (∀ db, list_users db (some "") = list_users db none) ∧
    (∀ db g, list_students db (some "") g = list_students db none g) ∧
    (∀ db t, list_students db t (some "") = list_students db t none) ∧
    (∀ db, list_classes db (some "") = list_classes db none) ∧
    (∀ db c s, list_enrollments db (some "") c s = list_enrollments db none c s) ∧
    (∀ db t s, list_enrollments db t (some "") s = list_enrollments db t none s) ∧
    (∀ db t c, list_enrollments db t c (some "") = list_enrollments db t c none) ∧
    (∀ db c s d, list_attendance db (some "") c s d = list_attendance db none c s d) ∧
    (∀ db t s d, list_attendance db t (some "") s d = list_attendance db t none s d) ∧
    (∀ db t c d, list_attendance db t c (some "") d = list_attendance db t c none d) ∧
    (∀ db t c s, list_attendance db t c s (some "") = list_attendance db t c s none) ∧
    (∀ db s c t2, list_grades db (some "") s c t2 = list_grades db none s c t2) ∧
    (∀ db t c t2, list_grades db t (some "") c t2 = list_grades db t none c t2) ∧
    (∀ db t s t2, list_grades db t s (some "") t2 = list_grades db t s none t2) ∧
    (∀ db t s c, list_grades db t s c (some "") = list_grades db t s c none) ∧
    (∀ db s st, list_invoices db (some "") s st = list_invoices db none s st) ∧
    (∀ db t st, list_invoices db t (some "") st = list_invoices db t none st) ∧
    (∀ db t s, list_invoices db t s (some "") = list_invoices db t s none) ∧
    (∀ db i st, list_payments db (some "") i st = list_payments db none i st) ∧
    (∀ db t st, list_payments db t (some "") st = list_payments db t none st) ∧
    (∀ db t i, list_payments db t i (some "") = list_payments db t i none) ∧
    (∀ db, list_announcements db (some "") = list_announcements db none) ∧
    (∀ db s g, list_resources db (some "") s g = list_resources db none s g) ∧
    (∀ db t g, list_resources db t (some "") g = list_resources db t none g) ∧
    (∀ db t s, list_resources db t s (some "") = list_resources db t s none) ∧
    (∀ db c, list_assignments db (some "") c = list_assignments db none c) ∧
    (∀ db t, list_assignments db t (some "") = list_assignments db t none) ∧
    (∀ db c, list_quizzes db (some "") c = list_quizzes db none c) ∧
    (∀ db t, list_quizzes db t (some "") = list_quizzes db t none) ∧
    (∀ db q s, list_quiz_submissions db (some "") q s = list_quiz_submissions db none q s) ∧
    (∀ db t s, list_quiz_submissions db t (some "") s = list_quiz_submissions db t none s) ∧
    (∀ db t q, list_quiz_submissions db t q (some "") = list_quiz_submissions db t q none) ∧
    (∀ db u a, list_activity db (some "") u a = list_activity db none u a) ∧
    (∀ db t a, list_activity db t (some "") a = list_activity db t none a) ∧
    (∀ db t u, list_activity db t u (some "") = list_activity db t u none) ∧
    (∀ db, list_students db none (some "") =
      (db (collection_name .Student)).map renameId) :=
  by
  repeat' apply And.intro
  all_goals intros
  all_goals first
  | rfl
  | exact get_documents_nil_filter _ _

end EDmin
